import Mathlib

/-!
Verification of the OBS WebSocket client of the twitch-chat-overlay
extension (background service worker, `src/unnamed/part_001`).

The development shallowly embeds the relevant JavaScript:
* the authentication digests (`sha256`, `sha256Base64`, `generateAuthString`,
  source lines 32-62) over explicit byte lists, with SHA-256 and base64
  written out in full;
* the connection / multiplexer state machine (the module-level globals and
  the handlers `sendRequest`, `handleOBSMessage`, `handleHello`,
  `handleRequestResponse`, `connectToOBS`, `disconnectFromOBS`) as a step
  function `stepA` on a state record `S` that also emits the externally
  visible actions of each step;
* the highlight facade (`sendHighlightToOBS` and the `HIGHLIGHT_MESSAGE`
  listener) as a function of an oracle supplying the three request results.
-/

namespace OBSClient

/-! ## SHA-256 over byte lists (crypto.subtle.digest, source lines 43-48) -/

/-- 2^32, the word modulus of SHA-256. -/
def M32 : Nat := 4294967296

/-- Right rotation of a 32-bit word. -/
def rotr32 (x n : Nat) : Nat := ((x >>> n) ||| (x <<< (32 - n))) % M32

/-- SHA-256 small sigma 0. -/
def ssig0 (x : Nat) : Nat := rotr32 x 7 ^^^ rotr32 x 18 ^^^ (x >>> 3)

/-- SHA-256 small sigma 1. -/
def ssig1 (x : Nat) : Nat := rotr32 x 17 ^^^ rotr32 x 19 ^^^ (x >>> 10)

/-- SHA-256 big Sigma 0. -/
def bsig0 (x : Nat) : Nat := rotr32 x 2 ^^^ rotr32 x 13 ^^^ rotr32 x 22

/-- SHA-256 big Sigma 1. -/
def bsig1 (x : Nat) : Nat := rotr32 x 6 ^^^ rotr32 x 11 ^^^ rotr32 x 25

/-- SHA-256 choice function (¬x taken within 32 bits). -/
def chF (x y z : Nat) : Nat := (x &&& y) ^^^ ((x ^^^ 4294967295) &&& z)

/-- SHA-256 majority function. -/
def majF (x y z : Nat) : Nat := (x &&& y) ^^^ (x &&& z) ^^^ (y &&& z)

/-- The 64 SHA-256 round constants (FIPS 180-4, written in decimal). -/
def K : List Nat :=
  [1116352408, 1899447441, 3049323471, 3921009573, 961987163,
   1508970993, 2453635748, 2870763221, 3624381080, 310598401,
   607225278, 1426881987, 1925078388, 2162078206, 2614888103,
   3248222580, 3835390401, 4022224774, 264347078, 604807628,
   770255983, 1249150122, 1555081692, 1996064986, 2554220882,
   2821834349, 2952996808, 3210313671, 3336571891, 3584528711,
   113926993, 338241895, 666307205, 773529912, 1294757372,
   1396182291, 1695183700, 1986661051, 2177026350, 2456956037,
   2730485921, 2820302411, 3259730800, 3345764771, 3516065817,
   3600352804, 4094571909, 275423344, 430227734, 506948616,
   659060556, 883997877, 958139571, 1322822218, 1537002063,
   1747873779, 1955562222, 2024104815, 2227730452, 2361852424,
   2428436474, 2756734187, 3204031479, 3329325298]

/-- The initial SHA-256 hash value (FIPS 180-4, written in decimal). -/
def H0 : List Nat :=
  [1779033703, 3144134277, 1013904242, 2773480762,
   1359893119, 2600822924, 528734635, 1541459225]

/-- Big-endian byte decomposition of `x` into `n` bytes. -/
def toBEBytes : Nat → Nat → List Nat
  | 0, _ => []
  | n + 1, x => toBEBytes n (x / 256) ++ [x % 256]

/-- SHA-256 padding: append 0x80, zeros, and the 64-bit message bit length. -/
def padMsg (m : List Nat) : List Nat :=
  m ++ 0x80 :: List.replicate ((119 - m.length % 64) % 64) 0 ++ toBEBytes 8 (m.length * 8)

/-- Group bytes into 32-bit big-endian words. -/
def toWords : List Nat → List Nat
  | a :: b :: c :: d :: r => (((a * 256 + b) * 256 + c) * 256 + d) :: toWords r
  | _ => []

/-- Split a byte list into 64-byte blocks (the fuel bounds the number of
blocks; one byte of input funds at least one block). -/
def toBlocksAux : Nat → List Nat → List (List Nat)
  | 0, _ => []
  | _, [] => []
  | n + 1, a :: r => (a :: r.take 63) :: toBlocksAux n (r.drop 63)

/-- Split a byte list into 64-byte blocks. -/
def toBlocks (l : List Nat) : List (List Nat) := toBlocksAux l.length l

/-- Message-schedule extension step: the accumulator holds the words produced
so far in reverse order, so `w[i-2]` is at index 1 and `w[i-16]` at index 15. -/
def extendLoop : Nat → List Nat → List Nat
  | 0, acc => acc
  | n + 1, acc =>
    extendLoop n
      (((ssig1 (acc.getD 1 0) + acc.getD 6 0 + ssig0 (acc.getD 14 0) + acc.getD 15 0) % M32) :: acc)

/-- The 64-word SHA-256 message schedule of one block. -/
def schedule (ws : List Nat) : List Nat := (extendLoop 48 ws.reverse).reverse

/-- The eight SHA-256 working variables. -/
structure Hs where
  a : Nat
  b : Nat
  c : Nat
  d : Nat
  e : Nat
  f : Nat
  g : Nat
  h : Nat
deriving DecidableEq

/-- One SHA-256 compression round. -/
def roundStep (st : Hs) (k w : Nat) : Hs :=
  let t1 := (st.h + bsig1 st.e + chF st.e st.f st.g + k + w) % M32
  let t2 := (bsig0 st.a + majF st.a st.b st.c) % M32
  { a := (t1 + t2) % M32, b := st.a, c := st.b, d := st.c,
    e := (st.d + t1) % M32, f := st.e, g := st.f, h := st.g }

/-- Run the 64 rounds over the zipped constants and schedule. -/
def rounds : Hs → List (Nat × Nat) → Hs
  | st, [] => st
  | st, (k, w) :: r => rounds (roundStep st k w) r

/-- Load a hash value list into working variables. -/
def hsOfList (l : List Nat) : Hs :=
  { a := l.getD 0 0, b := l.getD 1 0, c := l.getD 2 0, d := l.getD 3 0,
    e := l.getD 4 0, f := l.getD 5 0, g := l.getD 6 0, h := l.getD 7 0 }

/-- Compress one 64-byte block into the running hash value. -/
def compress (hv : List Nat) (block : List Nat) : List Nat :=
  let st0 := hsOfList hv
  let st := rounds st0 (K.zip (schedule (toWords block)))
  [(st0.a + st.a) % M32, (st0.b + st.b) % M32, (st0.c + st.c) % M32, (st0.d + st.d) % M32,
   (st0.e + st.e) % M32, (st0.f + st.f) % M32, (st0.g + st.g) % M32, (st0.h + st.h) % M32]

/-- SHA-256 of a byte list, as the 32-byte digest. -/
def sha256 (msg : List Nat) : List Nat :=
  (((toBlocks (padMsg msg)).foldl compress H0).map (toBEBytes 4)).flatten

/-! ## base64 (btoa, source line 48) and UTF-8 (TextEncoder, source lines 44-45) -/

/-- The standard base64 alphabet. -/
def b64Alphabet : List Char :=
  "ABCDEFGHIJKLMNOPQRSTUVWXYZabcdefghijklmnopqrstuvwxyz0123456789+/".data

/-- The base64 character of a 6-bit group. -/
def b64c (n : Nat) : Char := b64Alphabet.getD n 'A'

/-- base64 encoding of a byte list, with `=` padding, as `btoa` produces. -/
def base64Chars : List Nat → List Char
  | [] => []
  | [x] => [b64c (x >>> 2), b64c ((x % 4) <<< 4), '=', '=']
  | [x, y] => [b64c (x >>> 2), b64c (((x % 4) <<< 4) + (y >>> 4)), b64c ((y % 16) <<< 2), '=']
  | x :: y :: z :: r =>
    b64c (x >>> 2) :: b64c (((x % 4) <<< 4) + (y >>> 4)) ::
      b64c (((y % 16) <<< 2) + (z >>> 6)) :: b64c (z % 64) :: base64Chars r

/-- base64 encoding as a string. -/
def base64Encode (l : List Nat) : String := String.mk (base64Chars l)

/-- UTF-8 encoding of one character. -/
def utf8Bytes (c : Char) : List Nat :=
  let n := c.toNat
  if n < 128 then [n]
  else if n < 2048 then [192 + n / 64, 128 + n % 64]
  else if n < 65536 then [224 + n / 4096, 128 + n / 64 % 64, 128 + n % 64]
  else [240 + n / 262144, 128 + n / 4096 % 64, 128 + n / 64 % 64, 128 + n % 64]

/-- UTF-8 encoding of a string, as `TextEncoder.encode` produces. -/
def strBytes (s : String) : List Nat := (s.data.map utf8Bytes).flatten

/-! ## The authentication engine (source lines 43-62) -/

/-- `sha256Base64` (source lines 43-49): base64 of the SHA-256 digest of the
UTF-8 encoding of the message. -/
def sha256Base64 (message : String) : String := base64Encode (sha256 (strBytes message))

/-- `generateAuthString` (source lines 56-62), translated statement by
statement. -/
def generateAuthString (password salt challenge : String) : String :=
  let saltedPassword := password ++ salt
  let saltedHash := sha256Base64 saltedPassword
  let challengeString := saltedHash ++ challenge
  sha256Base64 challengeString

/-- The authentication response as the spec writes it (spec section 4.2):
`secretDigest = base64(SHA256(password + salt))`,
`authResponse = base64(SHA256(secretDigest + challenge))`. -/
def authResponseSpec (password salt challenge : String) : String :=
  let secretDigest := base64Encode (sha256 (strBytes (password ++ salt)))
  base64Encode (sha256 (strBytes (secretDigest ++ challenge)))

/-- C1: For every password, salt, and challenge, `generateAuthString` returns
`base64(SHA256(secretDigest + challenge))` with
`secretDigest = base64(SHA256(password + salt))`; the SHA-256 used matches the
standard test vectors for `"abc"` and `""`, and the base64 encoder uses the
standard alphabet and `=` padding (RFC 4648 test vectors).  Purity and
determinism hold because the embedding is a total function of its inputs. -/
theorem C1_generateAuthString_spec :
    (∀ password salt challenge : String,
        generateAuthString password salt challenge =
          authResponseSpec password salt challenge) ∧
    sha256 (strBytes "abc") =
      [0xba, 0x78, 0x16, 0xbf, 0x8f, 0x01, 0xcf, 0xea, 0x41, 0x41, 0x40, 0xde, 0x5d, 0xae,
       0x22, 0x23, 0xb0, 0x03, 0x61, 0xa3, 0x96, 0x17, 0x7a, 0x9c, 0xb4, 0x10, 0xff, 0x61,
       0xf2, 0x00, 0x15, 0xad] ∧
    sha256 (strBytes "") =
      [0xe3, 0xb0, 0xc4, 0x42, 0x98, 0xfc, 0x1c, 0x14, 0x9a, 0xfb, 0xf4, 0xc8, 0x99, 0x6f,
       0xb9, 0x24, 0x27, 0xae, 0x41, 0xe4, 0x64, 0x9b, 0x93, 0x4c, 0xa4, 0x95, 0x99, 0x1b,
       0x78, 0x52, 0xb8, 0x55] ∧
    base64Encode (strBytes "f") = "Zg==" ∧
    base64Encode (strBytes "fo") = "Zm8=" ∧
    base64Encode (strBytes "foo") = "Zm9v" ∧
    base64Encode (strBytes "foobar") = "Zm9vYmFy" := by
  refine ⟨fun p s c => rfl, ?_, ?_, ?_, ?_, ?_, ?_⟩ <;> decide

/-! ## The connection and request-multiplexer state machine
(source lines 20-27 globals, 67-105, 110-192, 197-271)

The JavaScript globals become the fields of `S`.  WebSocket ready states use
the platform numbering: 0 CONNECTING, 1 OPEN, 2 CLOSING, 3 CLOSED; a socket
that was never created is treated as CLOSED.  Each handler is translated into
one arm of `stepA`, which also returns the list of externally visible actions
performed during the step (frames sent, status broadcasts, timers started,
reconnects scheduled, sockets created or closed). -/

/-- The `authentication` object of a Hello frame. -/
structure Auth where
  challenge : String
  salt : String
deriving DecidableEq

/-- An inbound frame, with the fields the handlers read.  `requestId`,
`result` and `comment` are only meaningful for `op = 7` frames. -/
structure Msg where
  op : Nat
  auth : Option Auth
  requestId : Nat
  result : Bool
  comment : Option String
deriving DecidableEq

/-- Outcome recorded for a resolved pending request: `success` for a promise
resolution, `failure` for a rejection with the given error message. -/
inductive Res where
  | success
  | failure (msg : String)
deriving DecidableEq

/-- Externally visible actions of one handler step. -/
inductive Act where
  | sendIdentify (auth : Option String)
  | statusBroadcast (err : Option String)
  | startKA
  | schedule (delay : Nat)
  | newSocket (sid : Nat)
  | closeSocket (sid : Nat)
deriving DecidableEq

/-- Events driving the handlers: the public calls (`connectToOBS`,
`disconnectFromOBS`, `sendRequest`), the socket callbacks (`onopen`,
`onclose`, `onmessage` — the message event carries the password read from
storage by `handleHello`), and the firing of a request's 10-second timer. -/
inductive Ev where
  | connect (userInitiated : Bool)
  | openEvt (sid : Nat)
  | closeEvt (sid : Nat)
  | msgEvt (password : String) (m : Msg)
  | issue
  | timeout (rid : Nat)
  | disconnect
deriving DecidableEq

/-- The module-level mutable state of the background script. -/
structure S where
  socks : List (Nat × Nat)
  nextSock : Nat
  cur : Option Nat
  isConnected : Bool
  isAuthenticated : Bool
  nextId : Nat
  pending : List Nat
  resolutions : List (Nat × Res)
  reconnectAttempts : Nat
  autoReconnect : Bool
  keepAlive : Bool
deriving DecidableEq

/-- Ready state of a socket (3 = CLOSED when unknown). -/
def sockState (s : S) (sid : Nat) : Nat := (s.socks.lookup sid).getD 3

/-- Whether `obsWebSocket && obsWebSocket.readyState === WebSocket.OPEN`
(the guard of `sendToOBS`, source lines 67-73, and of the early return of
`connectToOBS`, source line 198). -/
def curOpen (s : S) : Bool :=
  match s.cur with
  | some sid => sockState s sid == 1
  | none => false

/-- Overwrite the ready state of socket `sid`. -/
def setSock (s : S) (sid st : Nat) : S :=
  { s with socks := s.socks.map (fun p => if p.1 = sid then (sid, st) else p) }

/-- One step of the background script: the handler for event `e` run on
state `s`, returning the new state and the visible actions, translated from
source lines 78-105 (`sendRequest`), 110-139 (`handleOBSMessage`), 144-174
(`handleHello`), 179-192 (`handleRequestResponse`), 197-256 (`connectToOBS`
and its `onopen`/`onclose`), and 261-271 (`disconnectFromOBS`). -/
def stepA (s : S) (e : Ev) : S × List Act :=
  match e with
  | .connect userInitiated =>
    if curOpen s then (s, [])
    else
      let s1 := if userInitiated then { s with autoReconnect := true, reconnectAttempts := 0 } else s
      let sid := s1.nextSock
      ({ s1 with socks := s1.socks ++ [(sid, 0)], nextSock := sid + 1, cur := some sid },
       [.newSocket sid])
  | .openEvt sid =>
    if sockState s sid == 0 then
      let s1 := setSock s sid 1
      ({ s1 with isConnected := true, reconnectAttempts := 0 }, [.statusBroadcast none])
    else (s, [])
  | .closeEvt sid =>
    if sockState s sid == 3 then (s, [])
    else
      let wasConnected := s.isConnected
      let s1 := setSock s sid 3
      let s2 := { s1 with isConnected := false, isAuthenticated := false, cur := none,
                          keepAlive := false }
      let acts1 : List Act :=
        if wasConnected then [.statusBroadcast (some "Disconnected")] else []
      if s.autoReconnect then
        let n := s.reconnectAttempts + 1
        ({ s2 with reconnectAttempts := n }, acts1 ++ [.schedule (min (n * 2000) 30000)])
      else (s2, acts1)
  | .msgEvt password m =>
    if m.op = 0 then
      if m.auth.isSome && password == "" then
        (s, [.statusBroadcast (some "Password required")])
      else
        let authField := m.auth.map (fun a => generateAuthString password a.salt a.challenge)
        if curOpen s then (s, [.sendIdentify authField]) else (s, [])
    else if m.op = 2 then
      ({ s with isAuthenticated := true, keepAlive := true }, [.startKA, .statusBroadcast none])
    else if m.op = 7 then
      (if s.pending.contains m.requestId then
        { s with pending := s.pending.erase m.requestId,
                 resolutions :=
                   (m.requestId,
                     if m.result then Res.success
                     else Res.failure (m.comment.getD "Request failed")) :: s.resolutions }
      else s, [])
    else (s, [])
  | .issue =>
    let rid := s.nextId
    let s1 := { s with nextId := rid + 1, pending := rid :: s.pending }
    if curOpen s1 then (s1, [])
    else
      ({ s1 with pending := s1.pending.erase rid,
                 resolutions := (rid, Res.failure "WebSocket not connected") :: s1.resolutions },
       [])
  | .timeout rid =>
    if s.pending.contains rid then
      ({ s with pending := s.pending.erase rid,
                resolutions := (rid, Res.failure "Request timeout") :: s.resolutions }, [])
    else (s, [])
  | .disconnect =>
    let s1 := { s with autoReconnect := false, reconnectAttempts := 0, keepAlive := false,
                       isConnected := false, isAuthenticated := false }
    match s.cur with
    | some sid => ({ setSock s1 sid 2 with cur := none }, [.closeSocket sid])
    | none => ({ s1 with cur := none }, [])

/-- The state after one step. -/
def stepS (s : S) (e : Ev) : S := (stepA s e).1

/-- The state after a sequence of events. -/
def run (s : S) (evs : List Ev) : S := evs.foldl stepS s

/-- An entry of the observable timeline: either an inbound frame being
received or an action being performed. -/
inductive Item where
  | recv (op : Nat)
  | act (a : Act)
deriving DecidableEq

/-- The timeline entries of one step: the received frame (for message
events) followed by the actions the handler performs. -/
def stepItems (s : S) (e : Ev) : List Item :=
  (match e with
   | .msgEvt _ m => [Item.recv m.op]
   | _ => []) ++ (stepA s e).2.map Item.act

/-- The observable timeline of an event sequence. -/
def traceOf (s : S) : List Ev → List Item
  | [] => []
  | e :: r => stepItems s e ++ traceOf (stepS s e) r

/-- The reconnect delays scheduled along an event sequence, in order. -/
def delaysOf (s : S) (evs : List Ev) : List Nat :=
  (traceOf s evs).filterMap (fun it =>
    match it with
    | .act (.schedule d) => some d
    | _ => none)

/-- The state at service-worker start (source lines 20-27). -/
def initS : S :=
  { socks := [], nextSock := 1, cur := none, isConnected := false, isAuthenticated := false,
    nextId := 1, pending := [], resolutions := [], reconnectAttempts := 0,
    autoReconnect := false, keepAlive := false }

/-! ## Handshake ordering (claim C5) -/

/-- Scan a timeline and demand that every `sendIdentify` action happens
strictly after some Hello frame (op 0) was received, and every keepalive
start strictly after some Identified frame (op 2) was received.  `hSeen` and
`iSeen` record whether a Hello (resp. Identified) frame occurred earlier. -/
def check (hSeen iSeen : Bool) : List Item → Bool
  | [] => true
  | Item.recv op :: r => check (hSeen || op == 0) (iSeen || op == 2) r
  | Item.act (Act.sendIdentify _) :: r => hSeen && check hSeen iSeen r
  | Item.act Act.startKA :: r => iSeen && check hSeen iSeen r
  | Item.act _ :: r => check hSeen iSeen r

theorem check_map_act (l : List Act) (r : List Item) (hSeen iSeen : Bool)
    (hI : ∀ x ∈ l, (∃ a, x = Act.sendIdentify a) → hSeen = true)
    (hK : ∀ x ∈ l, x = Act.startKA → iSeen = true) :
    check hSeen iSeen (l.map Item.act ++ r) = check hSeen iSeen r := by
  induction l with
  | nil => simp
  | cons x xs ih =>
    have tail := ih (fun y hy => hI y (List.mem_cons_of_mem x hy))
      (fun y hy => hK y (List.mem_cons_of_mem x hy))
    cases x with
    | sendIdentify a =>
      have hs : hSeen = true := hI _ (List.mem_cons_self _ _) ⟨a, rfl⟩
      subst hs
      simp [check, tail]
    | startKA =>
      have hs : iSeen = true := hK _ (List.mem_cons_self _ _) rfl
      subst hs
      simp [check, tail]
    | statusBroadcast err => simpa [check] using tail
    | schedule d => simpa [check] using tail
    | newSocket sid => simpa [check] using tail
    | closeSocket sid => simpa [check] using tail

theorem acts_of_nonmsg (s : S) (e : Ev) (hne : ∀ pw m, e ≠ Ev.msgEvt pw m) :
    ∀ x ∈ (stepA s e).2, (∀ a, x ≠ Act.sendIdentify a) ∧ x ≠ Act.startKA := by
  intro x hx
  cases e with
  | connect u =>
    simp only [stepA] at hx
    split at hx <;> simp_all
  | openEvt sid =>
    simp only [stepA] at hx
    split at hx <;> simp_all
  | closeEvt sid =>
    simp only [stepA] at hx
    split at hx
    · simp_all
    · split at hx <;> split at hx <;> simp_all
      rcases hx with rfl | rfl <;> simp
  | msgEvt pw m => exact absurd rfl (hne pw m)
  | issue =>
    simp only [stepA] at hx
    split at hx <;> simp_all
  | timeout rid =>
    simp only [stepA] at hx
    split at hx <;> simp_all
  | disconnect =>
    simp only [stepA] at hx
    split at hx <;> simp_all

theorem acts_of_msg (s : S) (pw : String) (m : Msg) :
    ∀ x ∈ (stepA s (Ev.msgEvt pw m)).2,
      ((∃ a, x = Act.sendIdentify a) → m.op = 0) ∧ (x = Act.startKA → m.op = 2) := by
  intro x hx
  by_cases h0 : m.op = 0
  · simp only [stepA, h0, if_pos] at hx
    constructor
    · intro _; exact h0
    · intro hKA
      split at hx <;> [skip; split at hx] <;> simp_all
  · by_cases h2 : m.op = 2
    · simp only [stepA, h0, h2] at hx
      simp at hx
      constructor
      · rintro ⟨a, rfl⟩; simp at hx
      · intro _; exact h2
    · by_cases h7 : m.op = 7 <;> simp [stepA, h0, h2, h7] at hx

theorem stepItems_nonmsg (s : S) (e : Ev) (hne : ∀ pw m, e ≠ Ev.msgEvt pw m) :
    stepItems s e = (stepA s e).2.map Item.act := by
  cases e with
  | msgEvt pw m => exact absurd rfl (hne pw m)
  | connect u => simp [stepItems]
  | openEvt sid => simp [stepItems]
  | closeEvt sid => simp [stepItems]
  | issue => simp [stepItems]
  | timeout rid => simp [stepItems]
  | disconnect => simp [stepItems]

theorem check_traceOf (evs : List Ev) :
    ∀ (s : S) (hSeen iSeen : Bool), check hSeen iSeen (traceOf s evs) = true := by
  induction evs with
  | nil => intro s hSeen iSeen; rfl
  | cons e r ih =>
    intro s hSeen iSeen
    simp only [traceOf]
    by_cases hm : ∃ pw m, e = Ev.msgEvt pw m
    · obtain ⟨pw, m, rfl⟩ := hm
      simp only [stepItems, List.cons_append, List.nil_append, List.append_assoc]
      rw [check, check_map_act]
      · exact ih _ _ _
      · intro x hx hex
        have := (acts_of_msg s pw m x hx).1 hex
        simp [this]
      · intro x hx hex
        have := (acts_of_msg s pw m x hx).2 hex
        simp [this]
    · have hne : ∀ pw m, e ≠ Ev.msgEvt pw m := by
        intro pw m h
        exact hm ⟨pw, m, h⟩
      rw [stepItems_nonmsg s e hne, check_map_act]
      · exact ih _ _ _
      · intro x hx hex
        obtain ⟨a, ha⟩ := hex
        exact absurd ha ((acts_of_nonmsg s e hne x hx).1 a)
      · intro x hx hex
        exact absurd hex (acts_of_nonmsg s e hne x hx).2

/-- C5: Along the observable timeline of any event sequence from any state,
an Identify frame is sent only after a Hello frame (op 0) has been received,
and the keepalive probe is started only after an Identified frame (op 2) has
been received — `check` scans the timeline for exactly these two ordering
requirements. -/
theorem C5_identify_after_hello_keepalive_after_identified (s : S) (evs : List Ev) :
    check false false (traceOf s evs) = true :=
  check_traceOf evs s false false

/-! ## Request multiplexer: at-most-once resolution (claims C2, C3) -/

/-- Number of resolutions recorded for correlation id `i`. -/
def cnt (rs : List (Nat × Res)) (i : Nat) : Nat := rs.countP (fun p => p.1 == i)

/-- Multiplexer invariant over the id counter, pending set and resolution
log: pending ids are distinct and below the counter, logged ids are below the
counter, every id is resolved at most once, and a pending id is unresolved. -/
def InvM (n : Nat) (p : List Nat) (r : List (Nat × Res)) : Prop :=
  p.Nodup ∧ (∀ i ∈ p, i < n) ∧ (∀ q ∈ r, q.1 < n) ∧
    (∀ i, cnt r i ≤ 1) ∧ (∀ i ∈ p, cnt r i = 0)

/-- The multiplexer invariant of a machine state. -/
def Inv (s : S) : Prop := InvM s.nextId s.pending s.resolutions

theorem cnt_cons (j : Nat) (x : Res) (rs : List (Nat × Res)) (i : Nat) :
    cnt ((j, x) :: rs) i = cnt rs i + if j == i then 1 else 0 :=
  List.countP_cons _ _ _

theorem cnt_zero_of_lt (rs : List (Nat × Res)) (k : Nat) (h : ∀ q ∈ rs, q.1 < k) :
    cnt rs k = 0 := by
  apply List.countP_eq_zero.mpr
  intro q hq
  simp only [beq_iff_eq]
  exact Nat.ne_of_lt (h q hq)

theorem invResolve (n : Nat) (p : List Nat) (r : List (Nat × Res)) (rid : Nat) (x : Res)
    (hin : rid ∈ p) (h : InvM n p r) : InvM n (p.erase rid) ((rid, x) :: r) := by
  obtain ⟨h1, h2, h3, h4, h5⟩ := h
  refine ⟨h1.erase rid, ?_, ?_, ?_, ?_⟩
  · intro i hi
    exact h2 i (List.erase_subset _ _ hi)
  · intro q hq
    rcases List.mem_cons.mp hq with rfl | hq2
    · exact h2 rid hin
    · exact h3 q hq2
  · intro i
    rw [cnt_cons]
    by_cases he : rid = i
    · subst he
      rw [h5 rid hin]
      simp
    · have hb : (rid == i) = false := by simpa using he
      rw [hb]
      simpa using h4 i
  · intro i hi
    obtain ⟨hne, hip⟩ := h1.mem_erase_iff.mp hi
    rw [cnt_cons, h5 i hip]
    have hb : (rid == i) = false := by simpa using Ne.symm hne
    rw [hb]
    rfl

theorem invIssueOpen (n : Nat) (p : List Nat) (r : List (Nat × Res)) (h : InvM n p r) :
    InvM (n + 1) (n :: p) r := by
  obtain ⟨h1, h2, h3, h4, h5⟩ := h
  refine ⟨List.nodup_cons.mpr ⟨fun hmem => absurd (h2 n hmem) (lt_irrefl n), h1⟩, ?_, ?_, h4, ?_⟩
  · intro i hi
    rcases List.mem_cons.mp hi with rfl | hi2
    · exact Nat.lt_succ_self i
    · exact Nat.lt_succ_of_lt (h2 i hi2)
  · intro q hq
    exact Nat.lt_succ_of_lt (h3 q hq)
  · intro i hi
    rcases List.mem_cons.mp hi with rfl | hi2
    · exact cnt_zero_of_lt r i h3
    · exact h5 i hi2

theorem invIssueClosed (n : Nat) (p : List Nat) (r : List (Nat × Res)) (x : Res)
    (h : InvM n p r) : InvM (n + 1) p ((n, x) :: r) := by
  obtain ⟨h1, h2, h3, h4, h5⟩ := h
  refine ⟨h1, fun i hi => Nat.lt_succ_of_lt (h2 i hi), ?_, ?_, ?_⟩
  · intro q hq
    rcases List.mem_cons.mp hq with rfl | hq2
    · exact Nat.lt_succ_self n
    · exact Nat.lt_succ_of_lt (h3 q hq2)
  · intro i
    rw [cnt_cons]
    by_cases he : n = i
    · subst he
      rw [cnt_zero_of_lt r n h3]
      simp
    · have hb : (n == i) = false := by simpa using he
      rw [hb]
      simpa using h4 i
  · intro i hi
    rw [cnt_cons, h5 i hi]
    have hb : (n == i) = false := by simpa using Nat.ne_of_gt (h2 i hi)
    rw [hb]
    rfl

theorem inv_step (s : S) (e : Ev) (h : Inv s) : Inv (stepS s e) := by
  cases e with
  | connect u =>
    simp only [stepS, stepA]
    split
    · exact h
    · split <;> exact h
  | openEvt sid =>
    simp only [stepS, stepA]
    split
    · exact h
    · exact h
  | closeEvt sid =>
    simp only [stepS, stepA]
    split
    · exact h
    · split <;> exact h
  | msgEvt pw m =>
    simp only [stepS, stepA]
    split
    · split
      · exact h
      · split <;> exact h
    · split
      · exact h
      · split
        · split
          · rename_i hc
            exact invResolve _ _ _ _ _ (by simpa using hc) h
          · exact h
        · exact h
  | issue =>
    simp only [stepS, stepA]
    split
    · exact invIssueOpen _ _ _ h
    · show InvM (s.nextId + 1) ((s.nextId :: s.pending).erase s.nextId)
        ((s.nextId, Res.failure "WebSocket not connected") :: s.resolutions)
      rw [List.erase_cons_head]
      exact invIssueClosed _ _ _ _ h
  | timeout rid =>
    simp only [stepS, stepA]
    split
    · rename_i hc
      exact invResolve _ _ _ _ _ (by simpa using hc) h
    · exact h
  | disconnect =>
    simp only [stepS, stepA]
    split
    · exact h
    · exact h

theorem inv_run (evs : List Ev) : ∀ s : S, Inv s → Inv (run s evs) := by
  induction evs with
  | nil => intro s h; exact h
  | cons e r ih => intro s h; exact ih (stepS s e) (inv_step s e h)

theorem inv_init : Inv initS :=
  ⟨List.nodup_nil, by simp [initS], by simp [initS], fun i => by simp [initS, cnt],
   by simp [initS]⟩

/-- A Ready connection (socket 1 open, authenticated, auto-reconnect on) with
no in-flight request, used as the start state of concrete traces. -/
def readyS : S :=
  { socks := [(1, 1)], nextSock := 2, cur := some 1, isConnected := true,
    isAuthenticated := true, nextId := 1, pending := [], resolutions := [],
    reconnectAttempts := 0, autoReconnect := true, keepAlive := true }

/-- `readyS` with request 1 already in flight. -/
def readyPendingS : S := { readyS with nextId := 2, pending := [1] }

/-- C2 counterexample: issue a request on an open Ready connection, then tear
the connection down with `disconnectFromOBS`.  Teardown is the first of the
claimed resolution paths to occur, yet it does not win: after the teardown
the resolution log is still empty and the request is still in the pending
map, so the claim that "exactly one resolution path wins — matching response,
10-second timeout, or connection teardown, whichever occurs first" is false
for this trace (the request is only resolved later, by its own timeout). -/
theorem C2_cex_teardown_does_not_resolve :
    (run readyS [Ev.issue, Ev.disconnect]).resolutions = [] ∧
    ¬((run readyS [Ev.issue, Ev.disconnect]).pending = []) := by
  decide

/-- C2 amended: for every issued request, at most one of the remaining
resolution paths wins — a matching response, the 10-second timeout, or the
immediate dispatch-failure rejection — and a request is never resolved
twice: along any event sequence from the initial state each correlation id
occurs at most once in the resolution log; moreover once a request id has
been removed (e.g. on timeout), a later-arriving op 7 response carrying that
id is dropped silently, leaving the state unchanged.  (Connection teardown is
not a resolution path in this code: see the counterexample.) -/
theorem C2_amended_at_most_once :
    (∀ (evs : List Ev) (i : Nat), cnt ((run initS evs).resolutions) i ≤ 1) ∧
    (∀ (s : S) (pw : String) (m : Msg), m.op = 7 → s.pending.contains m.requestId = false →
        stepS s (Ev.msgEvt pw m) = s) := by
  constructor
  · intro evs i
    exact (inv_run evs initS inv_init).2.2.2.1 i
  · intro s pw m h7 hc
    have n0 : ¬(m.op = 0) := by omega
    have n2 : ¬(m.op = 2) := by omega
    have hcc : ¬(s.pending.contains m.requestId = true) := by simp only [hc]; simp
    simp only [stepS, stepA, if_neg n0, if_neg n2, if_pos h7, if_neg hcc]

theorem C2_amended_at_most_once_witness :
    cnt ((run initS [Ev.issue]).resolutions) 1 ≤ 1 ∧
    stepS readyS (Ev.msgEvt ""
      { op := 7, auth := none, requestId := 5, result := true, comment := none }) = readyS :=
  ⟨C2_amended_at_most_once.1 [Ev.issue] 1,
   C2_amended_at_most_once.2 readyS ""
     { op := 7, auth := none, requestId := 5, result := true, comment := none } rfl (by decide)⟩

/-- C3 counterexample: tearing down a connection with one in-flight request
(`disconnectFromOBS` on `readyPendingS`) leaves the request in the pending
map, contradicting "resolves every PendingRequest with a connection-lost
error, leaving no entry in the pending-request map"; neither `onclose` nor
`disconnectFromOBS` touches `pendingRequests` or any request timer. -/
theorem C3_cex_teardown_leaves_pending :
    ¬((stepS readyPendingS Ev.disconnect).pending = []) := by
  decide

/-- C3 amended: tearing down the connection — whether by explicit disconnect
(`disconnectFromOBS`) or by an unexpected socket close (the `onclose`
handler) — does not cancel any request timer and does not resolve any
pending request: both teardown steps leave the pending map and the
resolution log untouched; each pending request is only resolved later, with
a "Request timeout" rejection, when its own 10-second timer fires; explicit
disconnect does clear the auto-reconnect flag, and with that flag cleared a
subsequent socket close schedules no reconnect attempt. -/
theorem C3_amended_teardown_untouched :
    (∀ s : S, (stepS s Ev.disconnect).pending = s.pending ∧
        (stepS s Ev.disconnect).resolutions = s.resolutions ∧
        (stepS s Ev.disconnect).autoReconnect = false) ∧
    (∀ (s : S) (sid : Nat), (stepS s (Ev.closeEvt sid)).pending = s.pending ∧
        (stepS s (Ev.closeEvt sid)).resolutions = s.resolutions) ∧
    (∀ (s : S) (rid : Nat), s.pending.contains rid = true →
        (stepS s (Ev.timeout rid)).resolutions =
          (rid, Res.failure "Request timeout") :: s.resolutions) ∧
    (∀ (s : S) (sid : Nat), s.autoReconnect = false →
        ∀ d, Act.schedule d ∉ (stepA s (Ev.closeEvt sid)).2) := by
  refine ⟨?_, ?_, ?_, ?_⟩
  · intro s
    cases hc : s.cur <;> simp [stepS, stepA, hc, setSock]
  · intro s sid
    constructor
    · simp only [stepS, stepA]
      split
      · rfl
      · split <;> rfl
    · simp only [stepS, stepA]
      split
      · rfl
      · split <;> rfl
  · intro s rid hc
    simp only [stepS, stepA, if_pos hc]
  · intro s sid h d
    simp only [stepA]
    split
    · simp
    · rw [if_neg (by simp [h] : ¬(s.autoReconnect = true))]
      split <;> simp

theorem C3_amended_teardown_untouched_witness :
    (stepS readyPendingS Ev.disconnect).pending = readyPendingS.pending ∧
    (stepS readyPendingS (Ev.closeEvt 1)).pending = readyPendingS.pending ∧
    (stepS readyPendingS (Ev.closeEvt 1)).resolutions = readyPendingS.resolutions ∧
    (stepS readyPendingS (Ev.timeout 1)).resolutions =
      (1, Res.failure "Request timeout") :: readyPendingS.resolutions ∧
    Act.schedule 2000 ∉ (stepA (stepS readyPendingS Ev.disconnect) (Ev.closeEvt 1)).2 :=
  ⟨(C3_amended_teardown_untouched.1 readyPendingS).1,
   (C3_amended_teardown_untouched.2.1 readyPendingS 1).1,
   (C3_amended_teardown_untouched.2.1 readyPendingS 1).2,
   C3_amended_teardown_untouched.2.2.1 readyPendingS 1 (by decide),
   C3_amended_teardown_untouched.2.2.2 (stepS readyPendingS Ev.disconnect) 1 (by decide) 2000⟩

/-! ## Reconnect backoff (claim C4) -/

/-- Delay sequence predicted by claim C4, written as a second definition
following the claim's own words for comparison against the code: on each
unexpected close (while auto-reconnect stays enabled, as it does in the
traces compared) the attempt counter is incremented and a reconnect is
scheduled after `min(attempt_count * 2s, 30s)`, and the counter is reset to
zero only on a successful Ready transition, i.e. receipt of an Identified
frame (op 2) — in particular a mere socket open does not reset it. -/
def claimDelays : Nat → List Ev → List Nat
  | _, [] => []
  | att, Ev.closeEvt _ :: r => min ((att + 1) * 2000) 30000 :: claimDelays (att + 1) r
  | att, Ev.msgEvt _ m :: r => claimDelays (if m.op == 2 then 0 else att) r
  | att, _ :: r => claimDelays att r

/-- A connected but not yet authenticated state (socket 1 open,
auto-reconnect enabled, counter zero). -/
def connFailS : S :=
  { socks := [(1, 1)], nextSock := 2, cur := some 1, isConnected := true,
    isAuthenticated := false, nextId := 1, pending := [], resolutions := [],
    reconnectAttempts := 0, autoReconnect := true, keepAlive := false }

/-- Three consecutive failures with a socket open (but never any Ready
transition) in the middle: close, reconnect, close, reconnect, open,
close. -/
def evs4 : List Ev :=
  [Ev.closeEvt 1, Ev.connect false, Ev.closeEvt 2, Ev.connect false, Ev.openEvt 3, Ev.closeEvt 3]

/-- C4 counterexample: on the trace `evs4` — three unexpected closes with
auto-reconnect enabled and no Ready transition anywhere (the middle attempt
reaches socket open but is closed before any Identified frame) — the claim
predicts the delay sequence 2s, 4s, 6s, since the counter may only reset on
a successful Ready transition; the code instead resets the counter already
in the `onopen` handler (source line 219) and schedules 2s, 4s, 2s. -/
theorem C4_cex_reset_on_open_not_ready :
    delaysOf connFailS evs4 = [2000, 4000, 2000] ∧
    claimDelays 0 evs4 = [2000, 4000, 6000] ∧
    ¬(delaysOf connFailS evs4 = claimDelays 0 evs4) := by
  decide

/-- A single socket in CONNECTING state with auto-reconnect enabled, from
which the capped-backoff trace starts. -/
def connectingS : S :=
  { initS with socks := [(1, 0)], nextSock := 2, cur := some 1, autoReconnect := true }

/-- Sixteen consecutive failures: each close of the current socket followed
by the scheduled reconnect creating the next socket. -/
def evsCap : List Ev :=
  (List.range 16).flatMap (fun k => [Ev.closeEvt (k + 1), Ev.connect false])

/-- C4 amended: on each unexpected close with auto-reconnect enabled the
attempt counter is incremented and a reconnect is scheduled after
`min((counter+1) * 2s, 30s)`, yielding 2s, 4s, 6s, ... capped at 30s for
consecutive failures that never reach socket open (verified for sixteen
consecutive failures, where the cap is attained); but the counter resets to
zero already on a successful socket open (the Connected transition,
source line 219), not on the Ready transition — so the delay returns to 2s
after any successful open, even one whose connection attempt never becomes
Ready. -/
theorem C4_amended_backoff :
    (∀ (s : S) (sid : Nat), s.autoReconnect = true → (sockState s sid == 3) = false →
        (stepS s (Ev.closeEvt sid)).reconnectAttempts = s.reconnectAttempts + 1 ∧
        Act.schedule (min ((s.reconnectAttempts + 1) * 2000) 30000) ∈
          (stepA s (Ev.closeEvt sid)).2) ∧
    (∀ (s : S) (sid : Nat), (sockState s sid == 0) = true →
        (stepS s (Ev.openEvt sid)).reconnectAttempts = 0) ∧
    delaysOf connectingS evsCap = (List.range 16).map (fun k => min ((k + 1) * 2000) 30000) := by
  refine ⟨?_, ?_, by decide⟩
  · intro s sid h1 h2
    have h3 : ¬((sockState s sid == 3) = true) := by simp [h2]
    constructor
    · simp only [stepS, stepA, if_neg h3, if_pos h1]
    · simp only [stepA, if_neg h3, if_pos h1]
      split <;> simp
  · intro s sid h1
    simp only [stepS, stepA, if_pos h1]

theorem C4_amended_backoff_witness :
    (stepS connFailS (Ev.closeEvt 1)).reconnectAttempts = connFailS.reconnectAttempts + 1 ∧
    Act.schedule (min ((connFailS.reconnectAttempts + 1) * 2000) 30000) ∈
      (stepA connFailS (Ev.closeEvt 1)).2 ∧
    (stepS connectingS (Ev.openEvt 1)).reconnectAttempts = 0 :=
  ⟨(C4_amended_backoff.1 connFailS 1 (by decide) (by decide)).1,
   (C4_amended_backoff.1 connFailS 1 (by decide) (by decide)).2,
   C4_amended_backoff.2.1 connectingS 1 (by decide)⟩

/-! ## Hello handling (claim C6) -/

/-- C6: when the inbound Hello (op 0) demands authentication but the
configured password is empty, `handleHello` performs exactly one action —
broadcasting the "Password required" status — and in particular sends no
Identify frame; when the Hello demands no authentication, it sends an
Identify frame whose authentication field is absent (the socket being open,
as it is whenever a message event is delivered). -/
theorem C6_hello_auth_handling :
    (∀ (s : S) (pw : String) (m : Msg), m.op = 0 → m.auth.isSome = true → pw = "" →
        (stepA s (Ev.msgEvt pw m)).2 = [Act.statusBroadcast (some "Password required")] ∧
        ∀ a, Act.sendIdentify a ∉ (stepA s (Ev.msgEvt pw m)).2) ∧
    (∀ (s : S) (pw : String) (m : Msg), m.op = 0 → m.auth = none → curOpen s = true →
        (stepA s (Ev.msgEvt pw m)).2 = [Act.sendIdentify none]) := by
  constructor
  · intro s pw m h0 h1 h2
    subst h2
    simp [stepA, h0, h1]
  · intro s pw m h0 h1 h2
    simp [stepA, h0, h1, h2]

theorem C6_hello_auth_handling_witness :
    (stepA readyS (Ev.msgEvt ""
        { op := 0, auth := some { challenge := "c", salt := "s" }, requestId := 0,
          result := true, comment := none })).2 =
      [Act.statusBroadcast (some "Password required")] ∧
    (stepA readyS (Ev.msgEvt "pw"
        { op := 0, auth := none, requestId := 0, result := true, comment := none })).2 =
      [Act.sendIdentify none] :=
  ⟨(C6_hello_auth_handling.1 readyS ""
      { op := 0, auth := some { challenge := "c", salt := "s" }, requestId := 0,
        result := true, comment := none } rfl rfl rfl).1,
   C6_hello_auth_handling.2 readyS "pw"
     { op := 0, auth := none, requestId := 0, result := true, comment := none } rfl rfl
     (by decide)⟩

/-! ## Socket uniqueness (claim C8) -/

/-- The sockets that are live (CONNECTING or OPEN). -/
def liveSocks (s : S) : List (Nat × Nat) :=
  s.socks.filter (fun p => p.2 == 0 || p.2 == 1)

/-- C8 (exhibiting the code bug): call `connectToOBS` while the previous
socket is still CONNECTING — e.g. the stored-auto-reconnect startup
connection followed by the user pressing Connect.  The guard at source line
198 only returns early when the existing socket is OPEN, and `connectToOBS`
never closes an existing non-open socket, so after the second call two live
sockets exist and no close was ever issued — contradicting "at most one live
Transport exists per client; creating a new one implies tearing down any
prior socket". -/
theorem C8_two_live_sockets :
    (liveSocks (run initS [Ev.connect false, Ev.connect true])).length = 2 ∧
    (traceOf initS [Ev.connect false, Ev.connect true]).filterMap
        (fun it =>
          match it with
          | Item.act (Act.closeSocket sid) => some sid
          | _ => none) = [] := by
  decide

/-! ## The highlight facade (source lines 329-383 and the HIGHLIGHT_MESSAGE
listener, lines 392-396)

`sendHighlightToOBS` awaits three requests in sequence (`GetInputSettings`,
`SetInputSettings`, `PressInputPropertiesButton`).  The embedding takes an
oracle carrying the outcome each of these requests would have, and returns
the list of requests actually issued together with the overall result
(`Except.error` standing for a thrown/propagated rejection). -/

/-- The payload of a user-flagged chat line (the content script's record). -/
structure MessageData where
  username : String
  message : String
  userColor : String
  timestamp : String
deriving DecidableEq

/-- A request issued over the transport by the highlight operation. -/
inductive HReq where
  | getInput (inputName : String)
  | setInput (inputName : String) (url : String)
  | press (inputName : String) (propertyName : String)
deriving DecidableEq

/-- Outcomes of the three awaited requests: for `GetInputSettings` the value
is `currentSettings?.inputSettings?.url` (`none` when absent). -/
structure Oracle where
  getResp : Except String (Option String)
  setResp : Except String Unit
  pressResp : Except String Unit

/-- `stored.browserSourceName || OBS_CONFIG.browserSourceName` (source line
335): JavaScript treats an absent value and the empty string as falsy. -/
def resolveSourceName (stored : Option String) : String :=
  match stored with
  | some s => if s = "" then "TwitchHighlight" else s
  | none => "TwitchHighlight"

/-- `stored.displayDuration || 8` (source line 336, 0 is falsy). -/
def resolveDuration (stored : Option Nat) : Nat :=
  match stored with
  | some n => if n = 0 then 8 else n
  | none => 8

/-- Upper-case hexadecimal digit. -/
def hexUp (n : Nat) : Char := "0123456789ABCDEF".data.getD n '0'

/-- Bytes serialized verbatim by the application/x-www-form-urlencoded
serializer of `URLSearchParams`: ASCII alphanumerics and `* - . _`. -/
def isFormSafe (b : Nat) : Bool :=
  (48 ≤ b && b ≤ 57) || (65 ≤ b && b ≤ 90) || (97 ≤ b && b ≤ 122) ||
    b == 42 || b == 45 || b == 46 || b == 95

/-- One byte of form encoding: space becomes `+`, safe bytes stand
verbatim, everything else is percent-escaped. -/
def formEncodeByte (b : Nat) : List Char :=
  if b == 32 then ['+']
  else if isFormSafe b then [Char.ofNat b]
  else ['%', hexUp (b / 16), hexUp (b % 16)]

/-- Form encoding of one string value. -/
def formEncodeStr (s : String) : String :=
  String.mk (((strBytes s).map formEncodeByte).flatten)

/-- `URLSearchParams.toString()`: `k=v` pairs joined by `&`, in insertion
order. -/
def formEncodePairs (ps : List (String × String)) : String :=
  String.intercalate "&" (ps.map (fun p => formEncodeStr p.1 ++ "=" ++ formEncodeStr p.2))

/-- The query string built at source lines 339-345: exactly the five fields
username, message, color, timestamp, duration, where `timestamp` is the
dispatch time `Date.now()` (the `now` argument) and `duration` the resolved
display duration. -/
def highlightParams (md : MessageData) (now durVal : Nat) : String :=
  formEncodePairs
    [("username", md.username), ("message", md.message), ("color", md.userColor),
     ("timestamp", toString now), ("duration", toString durVal)]

/-- The error thrown at source line 356 when the browser source is missing
or has no URL, naming the expected target twice. -/
def targetNotFoundMsg (n : String) : String :=
  "Browser source \"" ++ n ++
    "\" not found or has no URL. Please create a browser source named \"" ++ n ++ "\" in OBS."

/-- `baseUrl.split('?')[0]` (source line 360): the part before the first
`?`. -/
def stripQuery (s : String) : String := String.mk (s.data.takeWhile (fun c => c != '?'))

/-- `urlBase + '?' + params.toString()` (source line 361). -/
def newUrlOf (baseUrl query : String) : String := stripQuery baseUrl ++ "?" ++ query

/-- `sendHighlightToOBS` (source lines 329-383): fail fast when not
authenticated; fetch the browser source settings; abort with the
target-not-found error when the URL is falsy; otherwise rewrite the URL and
push it, then refresh; any rejection propagates as the first error and stops
the sequence. -/
def sendHighlightToOBS (isAuth : Bool) (storedName : Option String) (storedDur : Option Nat)
    (orc : Oracle) (md : MessageData) (now : Nat) : List HReq × Except String Bool :=
  if isAuth then
    let sourceName := resolveSourceName storedName
    let params := highlightParams md now (resolveDuration storedDur)
    match orc.getResp with
    | .error e => ([.getInput sourceName], .error e)
    | .ok urlOpt =>
      let baseUrl := urlOpt.getD ""
      if baseUrl = "" then ([.getInput sourceName], .error (targetNotFoundMsg sourceName))
      else
        let newUrl := newUrlOf baseUrl params
        match orc.setResp with
        | .error e => ([.getInput sourceName, .setInput sourceName newUrl], .error e)
        | .ok _ =>
          match orc.pressResp with
          | .error e =>
            ([.getInput sourceName, .setInput sourceName newUrl,
              .press sourceName "refreshnocache"], .error e)
          | .ok _ =>
            ([.getInput sourceName, .setInput sourceName newUrl,
              .press sourceName "refreshnocache"], .ok true)
  else ([], .error "Not connected to OBS")

/-- What the `HIGHLIGHT_MESSAGE` listener passes to `sendResponse`. -/
structure SendResponsePayload where
  success : Bool
  error : Option String
deriving DecidableEq

/-- The `HIGHLIGHT_MESSAGE` arm of the `chrome.runtime.onMessage` listener
(source lines 392-396): resolve to `{success: true}`, or catch the error and
respond `{success: false, error}`. -/
def highlightListener (isAuth : Bool) (storedName : Option String) (storedDur : Option Nat)
    (orc : Oracle) (md : MessageData) (now : Nat) : List HReq × SendResponsePayload :=
  let r := sendHighlightToOBS isAuth storedName storedDur orc md now
  (r.1,
   match r.2 with
   | .ok _ => { success := true, error := none }
   | .error e => { success := false, error := some e })

/-- C9: invoking the highlight operation while not authenticated fails
immediately: no request at all is issued over the transport, and the caller
receives `{success: false, error: "Not connected to OBS"}` through the
listener's catch handler rather than an uncaught exception. -/
theorem C9_unauthenticated_fails_fast (storedName : Option String) (storedDur : Option Nat)
    (orc : Oracle) (md : MessageData) (now : Nat) :
    highlightListener false storedName storedDur orc md now =
      ([], { success := false, error := some "Not connected to OBS" }) := rfl

/-- C7: the composed highlight operation (a) returns the target-not-found
error naming the expected target, and issues no update request, when the
fetched configuration has no destination URL (absent or empty); (b) reports
success exactly when every step succeeds; (c) when the settings fetch itself
fails, that first error is the result and nothing further is issued;
(d) when the URL update fails, that error is the result and the refresh is
never issued; (e) when the refresh fails, that error is the result — so no
partial application is ever reported as success and the first error wins. -/
theorem C7_highlight_error_propagation :
    (∀ (sn : Option String) (sd : Option Nat) (orc : Oracle) (md : MessageData) (now : Nat),
        orc.getResp = Except.ok none ∨ orc.getResp = Except.ok (some "") →
        sendHighlightToOBS true sn sd orc md now =
          ([HReq.getInput (resolveSourceName sn)],
           Except.error (targetNotFoundMsg (resolveSourceName sn)))) ∧
    (∀ (sn : Option String) (sd : Option Nat) (orc : Oracle) (md : MessageData) (now : Nat),
        (sendHighlightToOBS true sn sd orc md now).2 = Except.ok true ↔
          ∃ u, orc.getResp = Except.ok (some u) ∧ ¬(u = "") ∧
            orc.setResp = Except.ok () ∧ orc.pressResp = Except.ok ()) ∧
    (∀ (sn : Option String) (sd : Option Nat) (orc : Oracle) (md : MessageData) (now : Nat)
        (e : String), orc.getResp = Except.error e →
        sendHighlightToOBS true sn sd orc md now =
          ([HReq.getInput (resolveSourceName sn)], Except.error e)) ∧
    (∀ (sn : Option String) (sd : Option Nat) (orc : Oracle) (md : MessageData) (now : Nat)
        (u e : String), orc.getResp = Except.ok (some u) → ¬(u = "") →
        orc.setResp = Except.error e →
        (sendHighlightToOBS true sn sd orc md now).2 = Except.error e ∧
        HReq.press (resolveSourceName sn) "refreshnocache" ∉
          (sendHighlightToOBS true sn sd orc md now).1) ∧
    (∀ (sn : Option String) (sd : Option Nat) (orc : Oracle) (md : MessageData) (now : Nat)
        (u e : String), orc.getResp = Except.ok (some u) → ¬(u = "") →
        orc.setResp = Except.ok () → orc.pressResp = Except.error e →
        (sendHighlightToOBS true sn sd orc md now).2 = Except.error e) := by
  refine ⟨?_, ?_, ?_, ?_, ?_⟩
  · intro sn sd orc md now h
    rcases h with h | h <;> simp [sendHighlightToOBS, h]
  · intro sn sd orc md now
    constructor
    · intro hok
      rcases hG : orc.getResp with e | uo
      · simp [sendHighlightToOBS, hG] at hok
      · rcases uo with _ | u
        · simp [sendHighlightToOBS, hG] at hok
        · by_cases hu : u = ""
          · subst hu
            simp [sendHighlightToOBS, hG] at hok
          · rcases hS : orc.setResp with e | v
            · simp [sendHighlightToOBS, hG, hu, hS] at hok
            · rcases hP : orc.pressResp with e | w
              · simp [sendHighlightToOBS, hG, hu, hS, hP] at hok
              · exact ⟨u, rfl, hu, rfl, rfl⟩
    · rintro ⟨u, hG, hu, hS, hP⟩
      simp [sendHighlightToOBS, hG, hu, hS, hP]
  · intro sn sd orc md now e h
    simp [sendHighlightToOBS, h]
  · intro sn sd orc md now u e hG hu hS
    constructor <;> simp [sendHighlightToOBS, hG, hu, hS]
  · intro sn sd orc md now u e hG hu hS hP
    simp [sendHighlightToOBS, hG, hu, hS, hP]

/-- A sample chat payload used by the concrete witnesses. -/
def mdSample : MessageData :=
  { username := "alice", message := "hello world", userColor := "#9147ff", timestamp := "12:00" }

/-- Oracle: all three requests succeed, the source has a URL with a query. -/
def orcOk : Oracle :=
  { getResp := .ok (some "https://overlay.local/page?x=1"), setResp := .ok (),
    pressResp := .ok () }

/-- Oracle: the source exists but its URL is empty. -/
def orcNoUrl : Oracle :=
  { getResp := .ok (some ""), setResp := .ok (), pressResp := .ok () }

/-- Oracle: the settings fetch is rejected. -/
def orcGetErr : Oracle :=
  { getResp := .error "No source was found by the name of the input.", setResp := .ok (),
    pressResp := .ok () }

/-- Oracle: the URL update is rejected. -/
def orcSetErr : Oracle :=
  { getResp := .ok (some "https://overlay.local/page"), setResp := .error "set failed",
    pressResp := .ok () }

/-- Oracle: the refresh press is rejected. -/
def orcPressErr : Oracle :=
  { getResp := .ok (some "https://overlay.local/page"), setResp := .ok (),
    pressResp := .error "press failed" }

theorem C7_highlight_error_propagation_witness :
    sendHighlightToOBS true none none orcNoUrl mdSample 5 =
      ([HReq.getInput "TwitchHighlight"], Except.error (targetNotFoundMsg "TwitchHighlight")) ∧
    (sendHighlightToOBS true none none orcOk mdSample 5).2 = Except.ok true ∧
    sendHighlightToOBS true none none orcGetErr mdSample 5 =
      ([HReq.getInput "TwitchHighlight"],
       Except.error "No source was found by the name of the input.") ∧
    (sendHighlightToOBS true none none orcSetErr mdSample 5).2 = Except.error "set failed" ∧
    HReq.press "TwitchHighlight" "refreshnocache" ∉
      (sendHighlightToOBS true none none orcSetErr mdSample 5).1 ∧
    (sendHighlightToOBS true none none orcPressErr mdSample 5).2 = Except.error "press failed" :=
  ⟨C7_highlight_error_propagation.1 none none orcNoUrl mdSample 5 (Or.inr rfl),
   (C7_highlight_error_propagation.2.1 none none orcOk mdSample 5).mpr
     ⟨"https://overlay.local/page?x=1", rfl, by decide, rfl, rfl⟩,
   C7_highlight_error_propagation.2.2.1 none none orcGetErr mdSample 5
     "No source was found by the name of the input." rfl,
   (C7_highlight_error_propagation.2.2.2.1 none none orcSetErr mdSample 5
     "https://overlay.local/page" "set failed" rfl (by decide) rfl).1,
   (C7_highlight_error_propagation.2.2.2.1 none none orcSetErr mdSample 5
     "https://overlay.local/page" "set failed" rfl (by decide) rfl).2,
   C7_highlight_error_propagation.2.2.2.2 none none orcPressErr mdSample 5
     "https://overlay.local/page" "press failed" rfl (by decide) rfl rfl⟩

theorem takeWhile_append_stop (p : Char → Bool) (l : List Char) (c : Char) (ys : List Char)
    (hc : p c = false) :
    (l.takeWhile p ++ c :: ys).takeWhile p = l.takeWhile p := by
  induction l with
  | nil => simp [List.takeWhile_cons, hc]
  | cons a as ih =>
    by_cases ha : p a
    · simp [List.takeWhile_cons, ha, ih]
    · simp [List.takeWhile_cons, ha, hc]

/-- C10: when the highlight operation rewrites the browser source URL,
(a) the second issued request is the URL update carrying
`newUrlOf baseUrl (highlightParams ...)`; (b) the part of the URL before the
first `?` is preserved unchanged by the rewrite; (c) the rewritten URL
depends only on the part of the old URL before the first `?`, so any
pre-existing query string is discarded entirely; (d) the new query string
encodes exactly the five fields username, message, color, timestamp,
duration, with `timestamp` the dispatch time `now`; (e) the `timestamp`
field of the incoming payload does not influence the operation at all. -/
theorem C10_url_rewrite :
    (∀ (sn : Option String) (sd : Option Nat) (orc : Oracle) (md : MessageData) (now : Nat)
        (u : String), orc.getResp = Except.ok (some u) → ¬(u = "") →
        (sendHighlightToOBS true sn sd orc md now).1[1]? =
          some (HReq.setInput (resolveSourceName sn)
            (newUrlOf u (highlightParams md now (resolveDuration sd))))) ∧
    (∀ u q, stripQuery (newUrlOf u q) = stripQuery u) ∧
    (∀ u1 u2 q, stripQuery u1 = stripQuery u2 → newUrlOf u1 q = newUrlOf u2 q) ∧
    (∀ (md : MessageData) (now durVal : Nat),
        highlightParams md now durVal =
          formEncodePairs
            [("username", md.username), ("message", md.message), ("color", md.userColor),
             ("timestamp", toString now), ("duration", toString durVal)]) ∧
    (∀ (isAuth : Bool) (sn : Option String) (sd : Option Nat) (orc : Oracle)
        (md : MessageData) (now : Nat) (ts : String),
        sendHighlightToOBS isAuth sn sd orc { md with timestamp := ts } now =
          sendHighlightToOBS isAuth sn sd orc md now) := by
  refine ⟨?_, ?_, ?_, ?_, ?_⟩
  · intro sn sd orc md now u hG hu
    rcases hS : orc.setResp with e | v
    · simp [sendHighlightToOBS, hG, hu, hS]
    · rcases hP : orc.pressResp with e | w <;> simp [sendHighlightToOBS, hG, hu, hS, hP]
  · intro u q
    have hd : (newUrlOf u q).data = u.data.takeWhile (fun c => c != '?') ++ '?' :: q.data := by
      simp [newUrlOf, stripQuery, String.data_append]
    rw [stripQuery, hd, takeWhile_append_stop _ _ _ _ (by decide)]
    rfl
  · intro u1 u2 q h
    rw [newUrlOf, newUrlOf, h]
  · intro md now durVal
    rfl
  · intro isAuth sn sd orc md now ts
    cases md
    rfl

theorem C10_url_rewrite_witness :
    (sendHighlightToOBS true none none orcOk mdSample 5).1[1]? =
      some (HReq.setInput "TwitchHighlight"
        (newUrlOf "https://overlay.local/page?x=1" (highlightParams mdSample 5 8))) ∧
    newUrlOf "x?a" "q" = newUrlOf "x?b" "q" :=
  ⟨C10_url_rewrite.1 none none orcOk mdSample 5 "https://overlay.local/page?x=1" rfl
     (by decide),
   C10_url_rewrite.2.2.1 "x?a" "x?b" "q" (by decide)⟩

end OBSClient
